import Mathlib

/-!
Verification of the cloud-cost-tracker handlers.

The repository holds two Python Lambda handlers:
- `src/Lambda/lambda_function.py` (the Notifier Handler): extracts a message
  from an SNS-shaped event and writes one record into a DynamoDB table.
- `src/API_Integration/api_lambda.py` (the Log Reader Handler): scans at most
  10 records from the table and returns them as a JSON body.

We embed the handlers shallowly: JSON-compatible Python values become the
inductive `Json`; Python's dynamic attribute/subscript errors become an
explicit `PyError`; the external DynamoDB table capability becomes a list of
items together with an outcome parameter standing for the success or failure
of the single `put_item` / `scan` call an invocation performs; the clock
(`datetime.utcnow()`) becomes an explicit `PyDatetime` argument.
-/

namespace CloudCostTracker

/-- A JSON-compatible Python value: `None`, booleans, numbers, strings,
lists and string-keyed dictionaries. -/
inductive Json where
  | null : Json
  | bool : Bool → Json
  | num : Int → Json
  | str : String → Json
  | arr : List Json → Json
  | obj : List (String × Json) → Json

/-- The Python exceptions the handler body can raise on malformed input:
`AttributeError` (calling `.get` on a non-dict), `IndexError` (subscript 0 of
an empty sequence), `KeyError` (subscript 0 of a dict), `TypeError`
(subscript of a non-subscriptable value). -/
inductive PyError where
  | attributeError : PyError
  | indexError : PyError
  | keyError : PyError
  | typeError : PyError
deriving DecidableEq

/-- Python `v.get(key, dflt)`: dictionary lookup with a default; raises
`AttributeError` when `v` is not a dict. -/
def pyGet (v : Json) (key : String) (dflt : Json) : Except PyError Json :=
  match v with
  | Json.obj fields => Except.ok ((fields.lookup key).getD dflt)
  | _ => Except.error PyError.attributeError

/-- Python `v[0]`: first element of a list or string (`IndexError` when
empty), `KeyError` on a string-keyed dict, `TypeError` otherwise. -/
def pyIndexZero (v : Json) : Except PyError Json :=
  match v with
  | Json.arr [] => Except.error PyError.indexError
  | Json.arr (x :: _) => Except.ok x
  | Json.str s =>
    match s.data with
    | [] => Except.error PyError.indexError
    | c :: _ => Except.ok (Json.str (String.mk [c]))
  | Json.obj _ => Except.error PyError.keyError
  | _ => Except.error PyError.typeError

/-- The Notifier Handler's message extraction, line 17 of
`src/Lambda/lambda_function.py`:
`event.get("Records", [\x7b\x7d])[0].get("Sns", \x7b\x7d).get("Message", "Test alert")`. -/
def extractMessage (event : Json) : Except PyError Json :=
  match pyGet event "Records" (Json.arr [Json.obj []]) with
  | Except.error e => Except.error e
  | Except.ok records =>
    match pyIndexZero records with
    | Except.error e => Except.error e
    | Except.ok first =>
      match pyGet first "Sns" (Json.obj []) with
      | Except.error e => Except.error e
      | Except.ok sns => pyGet sns "Message" (Json.str "Test alert")

mutual

/-- Structural equality on `Json` values (Python `==` restricted to
JSON-compatible values), used to model DynamoDB's upsert-by-key. -/
def Json.beq : Json → Json → Bool
  | Json.null, Json.null => true
  | Json.bool a, Json.bool b => a == b
  | Json.num a, Json.num b => a == b
  | Json.str a, Json.str b => a == b
  | Json.arr a, Json.arr b => Json.beqList a b
  | Json.obj a, Json.obj b => Json.beqFields a b
  | _, _ => false

/-- Elementwise `Json.beq` on lists. -/
def Json.beqList : List Json → List Json → Bool
  | [], [] => true
  | x :: xs, y :: ys => Json.beq x y && Json.beqList xs ys
  | _, _ => false

/-- Elementwise `Json.beq` on key-value field lists. -/
def Json.beqFields : List (String × Json) → List (String × Json) → Bool
  | [], [] => true
  | (k, v) :: xs, (l, w) :: ys => k == l && Json.beq v w && Json.beqFields xs ys
  | _, _ => false

end

/-- A naive UTC datetime as produced by Python's `datetime.utcnow()`:
calendar fields down to microseconds, carrying no timezone information. -/
structure PyDatetime where
  year : Nat
  month : Nat
  day : Nat
  hour : Nat
  minute : Nat
  second : Nat
  microsecond : Nat
deriving DecidableEq

/-- Zero-padded decimal rendering (`%0wd`) of a natural number. -/
def padZeros (w : Nat) (n : Nat) : String :=
  let s := toString n
  String.mk (List.replicate (w - s.length) '0') ++ s

/-- Python's `datetime.isoformat()` on a naive datetime:
`YYYY-MM-DDTHH:MM:SS.ffffff`, except that the whole fractional part is
omitted when `microsecond` is zero, and no timezone suffix is appended
(the datetime is naive). -/
def pyIsoformat (t : PyDatetime) : String :=
  padZeros 4 t.year ++ "-" ++ padZeros 2 t.month ++ "-" ++ padZeros 2 t.day
    ++ "T" ++ padZeros 2 t.hour ++ ":" ++ padZeros 2 t.minute ++ ":" ++ padZeros 2 t.second
    ++ (if t.microsecond = 0 then "" else "." ++ padZeros 6 t.microsecond)

/-- The rendering the SPEC's words describe: ISO-8601 with microsecond
precision (the six fractional digits always present) and no timezone
suffix. Kept separate from `pyIsoformat` so the two can be compared. -/
def isoMicroRender (t : PyDatetime) : String :=
  padZeros 4 t.year ++ "-" ++ padZeros 2 t.month ++ "-" ++ padZeros 2 t.day
    ++ "T" ++ padZeros 2 t.hour ++ ":" ++ padZeros 2 t.minute ++ ":" ++ padZeros 2 t.second
    ++ ("." ++ padZeros 6 t.microsecond)

/-- Escape a string for inclusion in a JSON document (the two escapes that
can arise from quote and backslash; other characters pass through). -/
def jsonEscapeChar (c : Char) : String :=
  match c with
  | '\"' => "\\\""
  | '\\' => "\\\\"
  | c => String.mk [c]

/-- Escape every character of a string for JSON output. -/
def jsonEscape (s : String) : String :=
  s.data.foldr (fun c acc => jsonEscapeChar c ++ acc) ""

mutual

/-- Serialization of a `Json` value in the style of Python's
`json.dumps` (default separators `", "` and `": "`). -/
def Json.render : Json → String
  | Json.null => "null"
  | Json.bool true => "true"
  | Json.bool false => "false"
  | Json.num n => toString n
  | Json.str s => "\"" ++ jsonEscape s ++ "\""
  | Json.arr xs => "[" ++ Json.renderElems xs ++ "]"
  | Json.obj fs => "\x7b" ++ Json.renderFields fs ++ "\x7d"

/-- Comma-separated rendering of array elements. -/
def Json.renderElems : List Json → String
  | [] => ""
  | [x] => Json.render x
  | x :: y :: rest => Json.render x ++ ", " ++ Json.renderElems (y :: rest)

/-- Comma-separated rendering of object fields. -/
def Json.renderFields : List (String × Json) → String
  | [] => ""
  | [(k, v)] => "\"" ++ jsonEscape k ++ "\": " ++ Json.render v
  | (k, v) :: p :: rest =>
    "\"" ++ jsonEscape k ++ "\": " ++ Json.render v ++ ", " ++ Json.renderFields (p :: rest)

end

/-- An item stored in the DynamoDB table: a string-keyed dictionary of
JSON-compatible attribute values (the code writes `"id"` and `"message"`). -/
abbrev DbItem := List (String × Json)

/-- The key attribute of an item (the table's partition key is `"id"`). -/
def itemId (it : DbItem) : Option Json := it.lookup "id"

/-- Whether two optional key values are the same JSON value. -/
def optIdBeq (a b : Option Json) : Bool :=
  match a, b with
  | none, none => true
  | some x, some y => Json.beq x y
  | _, _ => false

/-- DynamoDB `put_item` on a successful call: upsert by the table's key —
any existing item sharing the new item's `"id"` is replaced, and the new
item is stored. The table state is a list of items. -/
def putItemUpsert (tbl : List DbItem) (r : DbItem) : List DbItem :=
  tbl.filter (fun it => !optIdBeq (itemId it) (itemId r)) ++ [r]

/-- An opaque failure of the external table capability (network,
throttling, permission); carried unchanged when propagated. -/
structure TableError where
  code : String
deriving DecidableEq

/-- An error escaping a handler invocation: a Python exception raised by the
handler body, or a table-capability failure propagating through it. -/
inductive HandlerError where
  | py : PyError → HandlerError
  | table : TableError → HandlerError
deriving DecidableEq

/-- Outcome of the single external `put_item` call an invocation performs,
decided by the environment (the table capability). -/
inductive PutOutcome where
  | ok : PutOutcome
  | fail : TableError → PutOutcome

/-- Outcome of the single external `scan` call an invocation performs. -/
inductive ScanOutcome where
  | ok : ScanOutcome
  | fail : TableError → ScanOutcome

/-- The Notifier Handler's return value `\x7b"statusCode": 200, "body": "Log stored"\x7d`. -/
structure Response where
  statusCode : Nat
  body : String
deriving DecidableEq

/-- The Log Reader Handler's return value: status code, headers and a
serialized body. -/
structure ApiResponse where
  statusCode : Nat
  headers : List (String × String)
  body : String
deriving DecidableEq

/-- Effect of one Notifier Handler invocation: the table state afterwards,
the sequence of `put_item` calls attempted (their items), and either the
returned response or the error that escaped. -/
structure NotifierStep where
  table : List DbItem
  puts : List DbItem
  result : Except HandlerError Response

/-- One invocation of `lambda_handler` in `src/Lambda/lambda_function.py`,
with the clock reading `now` and the table holding `tbl`:
compute `timestamp = datetime.utcnow().isoformat()`, extract the message
(which may raise), call `table.put_item` with
`\x7b"id": timestamp, "message": message\x7d` (which may fail, per `putRes`),
and return `\x7b"statusCode": 200, "body": "Log stored"\x7d`. -/
def notifier_step (putRes : PutOutcome) (now : PyDatetime) (event : Json)
    (tbl : List DbItem) : NotifierStep :=
  let timestamp := pyIsoformat now
  match extractMessage event with
  | Except.error e => { table := tbl, puts := [], result := Except.error (HandlerError.py e) }
  | Except.ok message =>
    let item : DbItem := [("id", Json.str timestamp), ("message", message)]
    match putRes with
    | PutOutcome.fail e =>
      { table := tbl, puts := [item], result := Except.error (HandlerError.table e) }
    | PutOutcome.ok =>
      { table := putItemUpsert tbl item, puts := [item],
        result := Except.ok { statusCode := 200, body := "Log stored" } }

/-- Effect of one Log Reader Handler invocation: the table state afterwards
(a scan never changes it) and either the response or the propagated error. -/
structure ApiStep where
  table : List DbItem
  result : Except TableError ApiResponse

/-- One invocation of `lambda_handler` in
`src/API_Integration/api_lambda.py`, with the table holding `tbl`:
`table.scan(Limit=10)` (which may fail, per `scanRes`) yields at most 10
items; `response.get("Items", [])` takes them (or the empty list); the
handler returns status 200, a `Content-Type: application/json` header and
`json.dumps(items)` as the body. -/
def api_step (scanRes : ScanOutcome) (tbl : List DbItem) (event : Json) : ApiStep :=
  match scanRes with
  | ScanOutcome.fail e => { table := tbl, result := Except.error e }
  | ScanOutcome.ok =>
    let items := tbl.take 10
    { table := tbl,
      result := Except.ok
        { statusCode := 200,
          headers := [("Content-Type", "application/json")],
          body := Json.render (Json.arr (items.map Json.obj)) } }

/-- The process environment at cold start: variable names to values. -/
abbrev Env := List (String × String)

/-- `os.environ["DDB_TABLE"]` in `src/Lambda/lambda_function.py`: a required
lookup with no default; raises `KeyError` when the variable is unset. -/
def notifierTableName (env : Env) : Except PyError String :=
  match env.lookup "DDB_TABLE" with
  | none => Except.error PyError.keyError
  | some v => Except.ok v

/-- `os.environ.get("DDB_TABLE", "CostTrackerLogs")` in
`src/API_Integration/api_lambda.py`: defaulted lookup. -/
def apiTableName (env : Env) : String :=
  ((env.lookup "DDB_TABLE").getD "CostTrackerLogs")

/-- A Notifier Handler invocation including module initialization: the
module-level `os.environ["DDB_TABLE"]` runs at cold start, so when it
raises, the failure happens before any handler logic — the event is never
inspected and no `put_item` call is attempted. -/
def notifier_invoke (env : Env) (putRes : PutOutcome) (now : PyDatetime)
    (event : Json) (tbl : List DbItem) : NotifierStep :=
  match notifierTableName env with
  | Except.error e => { table := tbl, puts := [], result := Except.error (HandlerError.py e) }
  | Except.ok _ => notifier_step putRes now event tbl

/-- A fixed clock reading used to instantiate closed statements
(microsecond component nonzero). -/
def sampleTime : PyDatetime :=
  { year := 2025, month := 1, day := 2, hour := 3, minute := 4, second := 5, microsecond := 6 }

/-- A clock reading whose microsecond component is exactly zero. -/
def zeroMicroTime : PyDatetime :=
  { year := 2021, month := 1, day := 1, hour := 0, minute := 0, second := 0, microsecond := 0 }

/-- Claim C1: of the four enumerated shapes missing the path
`Records[0].Sns.Message`, the empty object, a first element missing `Sns`,
and an `Sns` object missing `Message` all make the Notifier Handler write a
Record whose `message` is the literal "Test alert" — but an event whose
`Records` field is an empty list makes `event.get("Records", [\x7b\x7d])[0]`
raise `IndexError`, so no Record is written at all for that shape. -/
theorem notifier_missing_path_cases :
    ((notifier_step PutOutcome.ok sampleTime (Json.obj []) []).puts.map
        (fun it => it.lookup "message") = [some (Json.str "Test alert")])
  ∧ ((notifier_step PutOutcome.ok sampleTime
        (Json.obj [("Records", Json.arr [Json.obj []])]) []).puts.map
        (fun it => it.lookup "message") = [some (Json.str "Test alert")])
  ∧ ((notifier_step PutOutcome.ok sampleTime
        (Json.obj [("Records", Json.arr [Json.obj [("Sns", Json.obj [])]])]) []).puts.map
        (fun it => it.lookup "message") = [some (Json.str "Test alert")])
  ∧ ((notifier_step PutOutcome.ok sampleTime
        (Json.obj [("Records", Json.arr [])]) []).result
        = Except.error (HandlerError.py PyError.indexError))
  ∧ ((notifier_step PutOutcome.ok sampleTime
        (Json.obj [("Records", Json.arr [])]) []).puts = []) :=
  ⟨rfl, rfl, rfl, rfl, rfl⟩

/-- Claim C2: the Notifier Handler is not exception-free over all
JSON-compatible events: an event whose `Records` field is present but an
empty list raises `IndexError`; a non-dict event raises `AttributeError`;
a non-dict first `Records` element raises `AttributeError`. In each case
the invocation errors instead of falling through to the fallback message. -/
theorem notifier_raises_on_malformed_input :
    ((notifier_step PutOutcome.ok sampleTime
        (Json.obj [("Records", Json.arr [])]) []).result
        = Except.error (HandlerError.py PyError.indexError))
  ∧ ((notifier_step PutOutcome.ok sampleTime (Json.num 42) []).result
        = Except.error (HandlerError.py PyError.attributeError))
  ∧ ((notifier_step PutOutcome.ok sampleTime
        (Json.obj [("Records", Json.arr [Json.num 7])]) []).result
        = Except.error (HandlerError.py PyError.attributeError)) :=
  ⟨rfl, rfl, rfl⟩

/-- Claim C3: for every well-formed event holding a non-empty `Records`
list whose first element carries `Sns.Message = M`, the Notifier Handler
writes exactly one Record and its `message` field is `M`. -/
theorem notifier_extracts_sns_message
    (now : PyDatetime) (tbl : List DbItem)
    (fields ffields sfields : List (String × Json)) (rest : List Json) (M : Json)
    (hrec : fields.lookup "Records" = some (Json.arr (Json.obj ffields :: rest)))
    (hsns : ffields.lookup "Sns" = some (Json.obj sfields))
    (hmsg : sfields.lookup "Message" = some M) :
    (notifier_step PutOutcome.ok now (Json.obj fields) tbl).puts.map
        (fun it => it.lookup "message")
      = [some M] := by
  simp [notifier_step, extractMessage, pyGet, pyIndexZero, hrec, hsns, hmsg, List.lookup]

/-- Witness for C3 at Scenario A's concrete event. -/
theorem notifier_extracts_sns_message_witness :
    (notifier_step PutOutcome.ok sampleTime
        (Json.obj [("Records", Json.arr
          [Json.obj [("Sns", Json.obj [("Message", Json.str "CPU alarm triggered")])]])]) []).puts.map
        (fun it => it.lookup "message")
      = [some (Json.str "CPU alarm triggered")] :=
  notifier_extracts_sns_message sampleTime []
    [("Records", Json.arr
      [Json.obj [("Sns", Json.obj [("Message", Json.str "CPU alarm triggered")])]])]
    [("Sns", Json.obj [("Message", Json.str "CPU alarm triggered")])]
    [("Message", Json.str "CPU alarm triggered")]
    [] (Json.str "CPU alarm triggered") rfl rfl rfl

/-- Claim C4: on every table state (`scan` succeeding, returning at most
its limit), the Log Reader Handler returns status 200, the header
`Content-Type: application/json`, and a body that is the JSON serialization
of an array of at most 10 records — the empty array when the table holds
none. -/
theorem api_response_shape (tbl : List DbItem) (event : Json) :
    ((api_step ScanOutcome.ok tbl event).result
      = Except.ok
          { statusCode := 200,
            headers := [("Content-Type", "application/json")],
            body := Json.render (Json.arr ((tbl.take 10).map Json.obj)) })
  ∧ ((tbl.take 10).map Json.obj).length ≤ 10 := by
  refine ⟨rfl, ?_⟩
  simp [List.length_take]

/-- Claim C5: whenever the `put_item` call succeeds, the Notifier Handler
attempts exactly one put, its item is `\x7b id: timestamp, message \x7d`,
the table is updated by upsert with that item, and the returned value is
exactly `\x7b statusCode: 200, body: "Log stored" \x7d`. -/
theorem notifier_put_success
    (now : PyDatetime) (tbl : List DbItem) (event : Json) (msg : Json)
    (hmsg : extractMessage event = Except.ok msg) :
    ((notifier_step PutOutcome.ok now event tbl).puts
      = [[("id", Json.str (pyIsoformat now)), ("message", msg)]])
  ∧ ((notifier_step PutOutcome.ok now event tbl).result
      = Except.ok { statusCode := 200, body := "Log stored" })
  ∧ ((notifier_step PutOutcome.ok now event tbl).table
      = putItemUpsert tbl [("id", Json.str (pyIsoformat now)), ("message", msg)]) := by
  refine ⟨?_, ?_, ?_⟩ <;> simp [notifier_step, hmsg]

/-- Witness for C5 at Scenario B's concrete event (the empty object). -/
theorem notifier_put_success_witness :
    ((notifier_step PutOutcome.ok sampleTime (Json.obj []) []).puts
      = [[("id", Json.str (pyIsoformat sampleTime)), ("message", Json.str "Test alert")]])
  ∧ ((notifier_step PutOutcome.ok sampleTime (Json.obj []) []).result
      = Except.ok { statusCode := 200, body := "Log stored" })
  ∧ ((notifier_step PutOutcome.ok sampleTime (Json.obj []) []).table
      = putItemUpsert []
          [("id", Json.str (pyIsoformat sampleTime)), ("message", Json.str "Test alert")]) :=
  notifier_put_success sampleTime [] (Json.obj []) (Json.str "Test alert") rfl

/-- Claim C6: the Notifier Handler's table name is a required setting with
no default — when `DDB_TABLE` is unset, module initialization raises
`KeyError` at cold start, so every invocation fails with that error before
any handler logic runs (no event inspection, no put attempted) — while the
Log Reader Handler falls back to the documented default `CostTrackerLogs`. -/
theorem table_name_config (env : Env)
    (hnone : env.lookup "DDB_TABLE" = none) :
    (notifierTableName env = Except.error PyError.keyError)
  ∧ (∀ (putRes : PutOutcome) (now : PyDatetime) (event : Json) (tbl : List DbItem),
      notifier_invoke env putRes now event tbl
        = { table := tbl, puts := [],
            result := Except.error (HandlerError.py PyError.keyError) })
  ∧ (apiTableName env = "CostTrackerLogs") := by
  refine ⟨?_, ?_, ?_⟩
  · simp [notifierTableName, hnone]
  · intro putRes now event tbl
    simp [notifier_invoke, notifierTableName, hnone]
  · simp [apiTableName, hnone]

/-- Witness for C6 at the empty environment. -/
theorem table_name_config_witness :
    (notifierTableName [] = Except.error PyError.keyError)
  ∧ (notifier_invoke [] PutOutcome.ok sampleTime (Json.obj []) []
      = { table := [], puts := [],
          result := Except.error (HandlerError.py PyError.keyError) })
  ∧ (apiTableName [] = "CostTrackerLogs") :=
  ⟨(table_name_config [] rfl).1,
   (table_name_config [] rfl).2.1 PutOutcome.ok sampleTime (Json.obj []) [],
   (table_name_config [] rfl).2.2⟩

/-- Claim C7: when the table capability fails, each handler propagates the
very same failure value unchanged, returns no success response, and leaves
the table state exactly as it was — no partial record, no partial list. -/
theorem table_failure_propagates
    (e : TableError) (now : PyDatetime) (tbl : List DbItem) (event : Json) (msg : Json)
    (hmsg : extractMessage event = Except.ok msg) :
    ((notifier_step (PutOutcome.fail e) now event tbl).result
      = Except.error (HandlerError.table e))
  ∧ ((notifier_step (PutOutcome.fail e) now event tbl).table = tbl)
  ∧ ((api_step (ScanOutcome.fail e) tbl event).result = Except.error e)
  ∧ ((api_step (ScanOutcome.fail e) tbl event).table = tbl) := by
  refine ⟨?_, ?_, rfl, rfl⟩ <;> simp [notifier_step, hmsg]

/-- Witness for C7 at a concrete throttling failure. -/
theorem table_failure_propagates_witness :
    ((notifier_step (PutOutcome.fail { code := "Throttling" }) sampleTime
        (Json.obj []) []).result
      = Except.error (HandlerError.table { code := "Throttling" }))
  ∧ ((notifier_step (PutOutcome.fail { code := "Throttling" }) sampleTime
        (Json.obj []) []).table = [])
  ∧ ((api_step (ScanOutcome.fail { code := "Throttling" }) [] (Json.obj [])).result
      = Except.error { code := "Throttling" })
  ∧ ((api_step (ScanOutcome.fail { code := "Throttling" }) [] (Json.obj [])).table = []) :=
  table_failure_propagates { code := "Throttling" } sampleTime [] (Json.obj [])
    (Json.str "Test alert") rfl

/-- Counterexample to C8 as stated: when the clock reads a time whose
microsecond component is exactly zero, `datetime.isoformat()` omits the
fractional part entirely, so the written id `"2021-01-01T00:00:00"` is not
the microsecond-precision rendering the spec describes. -/
theorem notifier_id_not_always_micro :
    ((notifier_step PutOutcome.ok zeroMicroTime (Json.obj []) []).puts.map
        (fun it => it.lookup "id")
      = [some (Json.str "2021-01-01T00:00:00")])
  ∧ pyIsoformat zeroMicroTime ≠ isoMicroRender zeroMicroTime :=
  ⟨rfl, by decide⟩

/-- Claim C8 as amended: the id of the written Record is the clock's UTC
reading rendered by `isoformat()` — ISO-8601 with no timezone suffix, with
the six microsecond digits present exactly when the microsecond component
is nonzero (when it is zero the fractional part is omitted). -/
theorem notifier_id_isoformat
    (now : PyDatetime) (tbl : List DbItem) (event : Json) (msg : Json)
    (hmsg : extractMessage event = Except.ok msg) :
    ((notifier_step PutOutcome.ok now event tbl).puts.map (fun it => it.lookup "id")
      = [some (Json.str (pyIsoformat now))])
  ∧ (now.microsecond ≠ 0 → pyIsoformat now = isoMicroRender now) := by
  constructor
  · simp [notifier_step, hmsg, List.lookup]
  · intro h
    simp [pyIsoformat, isoMicroRender, h]

/-- Witness for C8's amended theorem at a nonzero-microsecond clock. -/
theorem notifier_id_isoformat_witness :
    ((notifier_step PutOutcome.ok sampleTime (Json.obj []) []).puts.map
        (fun it => it.lookup "id")
      = [some (Json.str (pyIsoformat sampleTime))])
  ∧ pyIsoformat sampleTime = isoMicroRender sampleTime :=
  ⟨(notifier_id_isoformat sampleTime [] (Json.obj []) (Json.str "Test alert") rfl).1,
   (notifier_id_isoformat sampleTime [] (Json.obj []) (Json.str "Test alert") rfl).2
     (by decide)⟩

/-- Claim C9: the Log Reader Handler ignores its input event entirely —
over the same table state and scan outcome, any two events produce the
identical invocation result. -/
theorem api_ignores_event (scanRes : ScanOutcome) (tbl : List DbItem) (e1 e2 : Json) :
    api_step scanRes tbl e1 = api_step scanRes tbl e2 := by
  cases scanRes <;> rfl

/-- Claim C10: when the path `Records[0].Sns.Message` is present with value
`v` — any JSON value, with no type or non-emptiness check — the item the
Notifier Handler puts is exactly
`[("id", timestamp), ("message", v)]`: `v` verbatim, and no field besides
`id` and `message`. -/
theorem notifier_stores_message_verbatim
    (now : PyDatetime) (tbl : List DbItem)
    (fields ffields sfields : List (String × Json)) (rest : List Json) (v : Json)
    (hrec : fields.lookup "Records" = some (Json.arr (Json.obj ffields :: rest)))
    (hsns : ffields.lookup "Sns" = some (Json.obj sfields))
    (hmsg : sfields.lookup "Message" = some v) :
    (notifier_step PutOutcome.ok now (Json.obj fields) tbl).puts
      = [[("id", Json.str (pyIsoformat now)), ("message", v)]] := by
  simp [notifier_step, extractMessage, pyGet, pyIndexZero, hrec, hsns, hmsg]

/-- Witness for C10 with a non-string message value. -/
theorem notifier_stores_message_verbatim_witness :
    (notifier_step PutOutcome.ok sampleTime
        (Json.obj [("Records", Json.arr [Json.obj [("Sns", Json.obj [("Message", Json.num 5)])]])]) []).puts
      = [[("id", Json.str (pyIsoformat sampleTime)), ("message", Json.num 5)]] :=
  notifier_stores_message_verbatim sampleTime []
    [("Records", Json.arr [Json.obj [("Sns", Json.obj [("Message", Json.num 5)])]])]
    [("Sns", Json.obj [("Message", Json.num 5)])]
    [("Message", Json.num 5)]
    [] (Json.num 5) rfl rfl rfl

end CloudCostTracker
